import Mathlib

/-
Verification development for the SagaInventory CSV import pipeline and
sale-recording contract.

The definitions below are shallow embeddings of the TypeScript source:
  * `parseCSVLine`, `parseCSV`, `validateRequired`, `validateNumber`,
    `validateInteger` embed the CSV utility module.
  * `productMapping`, `productTransform`, `handleFileImport` embed the
    products page import orchestration.
  * `InsertSale` / `insertSaleAccepts` embed the drizzle-zod insert schema
    for sales.
  * `recordSale` is modelled from the spec (the server-side writer is not
    part of the available source; the spec itself notes it is inferred).
JavaScript strings are Lean `String`s; JavaScript numbers that carry exact
decimal values are `Rat`; `parseInt` results are `Int`.
-/

namespace Saga

/-- Whitespace recognised by JavaScript trimming and numeric parsing, for the
code points that can occur in this development: space, tab, LF, CR, VT, FF. -/
def isJsSpace (c : Char) : Bool :=
  c = ' ' || c = '\t' || c = '\n' || c = '\r' || c = '\x0b' || c = '\x0c'

/-- JavaScript String.prototype.trim on a character list: drop leading and
trailing whitespace. -/
def jsTrimList (l : List Char) : List Char :=
  ((l.dropWhile isJsSpace).reverse.dropWhile isJsSpace).reverse

/-- JavaScript String.prototype.trim. -/
def jsTrim (s : String) : String := String.mk (jsTrimList s.data)

/-- JavaScript String.prototype.toLowerCase (ASCII range, which is all the
headers use). -/
def jsToLower (s : String) : String := String.mk (s.data.map Char.toLower)

/-- One field-accumulating pass of `parseCSVLine` (utils line 83-114).
First argument is the `inQuotes` flag, second is the reversed current field,
third is the remaining input. A double quote inside quotes followed by
another double quote emits one literal quote; otherwise a double quote
toggles the flag; a comma outside quotes ends the field; every field is
trimmed when pushed, exactly as `result.push(current.trim())` does. -/
def parseCSVLineAux : Bool → List Char → List Char → List String
  | _, cur, [] => [jsTrim (String.mk cur.reverse)]
  | true, cur, '"' :: '"' :: rest => parseCSVLineAux true ('"' :: cur) rest
  | true, cur, '"' :: rest => parseCSVLineAux false cur rest
  | false, cur, '"' :: rest => parseCSVLineAux true cur rest
  | false, cur, ',' :: rest =>
      jsTrim (String.mk cur.reverse) :: parseCSVLineAux false [] rest
  | inQ, cur, c :: rest => parseCSVLineAux inQ (c :: cur) rest

/-- Tokenize one CSV line into trimmed fields (utils `parseCSVLine`). -/
def parseCSVLine (line : String) : List String :=
  parseCSVLineAux false [] line.data

/-- Remove one carriage return at the head of a reversed line accumulator:
the `\r?` part of the split regex `/\r?\n/`. -/
def dropHeadCR : List Char → List Char
  | '\r' :: t => t
  | l => l

/-- Split on `/\r?\n/`: cut at every LF, consuming one CR directly before it.
The accumulator holds the current segment reversed. -/
def splitNlAux : List Char → List Char → List String
  | [], cur => [String.mk cur.reverse]
  | '\n' :: rest, cur => String.mk (dropHeadCR cur).reverse :: splitNlAux rest []
  | c :: rest, cur => splitNlAux rest (c :: cur)

/-- `text.split(/\r?\n/)` (utils line 19). -/
def splitReLines (text : String) : List String := splitNlAux text.data []

/-- `text.split(/\r?\n/).filter(line => line.trim())`: keep the lines whose
trimmed form is a non-empty (truthy) string. -/
def nonblankLines (text : String) : List String :=
  (splitReLines text).filter (fun l => jsTrim l ≠ "")

/-- ECMAScript `parseInt` digit in the given radix. -/
def digitInRadix (radix : Nat) (c : Char) : Option Nat :=
  let v : Option Nat :=
    if '0' ≤ c ∧ c ≤ '9' then some (c.toNat - '0'.toNat)
    else if 'a' ≤ c ∧ c ≤ 'f' then some (c.toNat - 'a'.toNat + 10)
    else if 'A' ≤ c ∧ c ≤ 'F' then some (c.toNat - 'A'.toNat + 10)
    else none
  match v with
  | some d => if d < radix then some d else none
  | none => none

/-- ECMAScript `parseInt(value)` with no radix argument: skip leading
whitespace, read an optional sign, honour an optional `0x`/`0X` hexadecimal
prefix, then take the longest run of digits; `none` models `NaN` when the
run is empty. The numeric value is exact here; `parseInt` never produces a
fractional number. -/
def jsParseInt (s : String) : Option Int :=
  let cs0 := s.data.dropWhile isJsSpace
  let signSplit : Bool × List Char :=
    match cs0 with
    | '-' :: r => (true, r)
    | '+' :: r => (false, r)
    | _ => (false, cs0)
  let radixSplit : Nat × List Char :=
    match signSplit.2 with
    | '0' :: 'x' :: r => (16, r)
    | '0' :: 'X' :: r => (16, r)
    | _ => (10, signSplit.2)
  let digits := radixSplit.2.takeWhile (fun c => (digitInRadix radixSplit.1 c).isSome)
  if digits.isEmpty then none
  else
    let n : Nat :=
      digits.foldl (fun acc c => acc * radixSplit.1 + ((digitInRadix radixSplit.1 c).getD 0)) 0
    some (if signSplit.1 then -(n : Int) else (n : Int))

/-- Value of a run of decimal digits. -/
def decDigitsVal (l : List Char) : Nat :=
  l.foldl (fun acc c => acc * 10 + (c.toNat - '0'.toNat)) 0

/-- ECMAScript `parseFloat(value)`: skip leading whitespace, optional sign,
then the longest decimal-literal prefix `digits [. digits] [exponent]` or
`. digits [exponent]`; `none` models `NaN`. Values are exact rationals; the
`Infinity` literal and double rounding are not modelled (no input considered
in this development contains them). -/
def jsParseFloat (s : String) : Option Rat :=
  let cs0 := s.data.dropWhile isJsSpace
  let signSplit : Bool × List Char :=
    match cs0 with
    | '-' :: r => (true, r)
    | '+' :: r => (false, r)
    | _ => (false, cs0)
  let intDigits := signSplit.2.takeWhile Char.isDigit
  let afterInt := signSplit.2.drop intDigits.length
  let fracSplit : List Char × List Char :=
    match afterInt with
    | '.' :: r => (r.takeWhile Char.isDigit, r.drop (r.takeWhile Char.isDigit).length)
    | _ => ([], afterInt)
  if intDigits.isEmpty ∧ fracSplit.1.isEmpty then none
  else
    let expDigits : Bool × List Char :=
      match fracSplit.2 with
      | 'e' :: '-' :: r => (true, r.takeWhile Char.isDigit)
      | 'e' :: '+' :: r => (false, r.takeWhile Char.isDigit)
      | 'e' :: r => (false, r.takeWhile Char.isDigit)
      | 'E' :: '-' :: r => (true, r.takeWhile Char.isDigit)
      | 'E' :: '+' :: r => (false, r.takeWhile Char.isDigit)
      | 'E' :: r => (false, r.takeWhile Char.isDigit)
      | _ => (false, [])
    -- an exponent marker with no digits is not part of the longest valid
    -- prefix, so it contributes exponent zero
    let expVal : Int :=
      if expDigits.2.isEmpty then 0
      else if expDigits.1 then -(decDigitsVal expDigits.2 : Int)
      else (decDigitsVal expDigits.2 : Int)
    let mant : Rat :=
      (decDigitsVal intDigits : Rat) +
        (decDigitsVal fracSplit.1 : Rat) / ((10 : Rat) ^ fracSplit.1.length)
    let scaled : Rat :=
      if 0 ≤ expVal then mant * (10 : Rat) ^ expVal.toNat
      else mant / ((10 : Rat) ^ (-expVal).toNat)
    some (if signSplit.1 then -scaled else scaled)

/-- utils `validateRequired` (lines 116-121): throw `"<field> is required"`
when the value is the empty string or whitespace-only, else return the
trimmed value. `!value` for a JavaScript string means `value === ""`. -/
def validateRequired (value fieldName : String) : Except String String :=
  if value = "" ∨ jsTrim value = "" then Except.error (fieldName ++ " is required")
  else Except.ok (jsTrim value)

/-- utils `validateNumber` (lines 123-129): `parseFloat`, throwing
`"<field> must be a valid number"` on `NaN`. -/
def validateNumber (value fieldName : String) : Except String Rat :=
  match jsParseFloat value with
  | none => Except.error (fieldName ++ " must be a valid number")
  | some q => Except.ok q

/-- utils `validateInteger` (lines 131-137): `parseInt`, throwing
`"<field> must be a valid integer"` on `NaN`. The source additionally tests
`!Number.isInteger(num)`, but `parseInt` only ever returns an integer or
`NaN` (for every non-astronomic input), so that conjunct never fires and is
not a separate case here. -/
def validateInteger (value fieldName : String) : Except String Int :=
  match jsParseInt value with
  | none => Except.error (fieldName ++ " must be a valid integer")
  | some n => Except.ok n

/-- One entry of the column mapping passed to `parseCSV`:
`{ csvHeader: string; field: keyof T }`, with the target field name as a
string. -/
structure ColumnSpec where
  csvHeader : String
  field : String
deriving DecidableEq

/-- Header-cell comparison key: `h.toLowerCase().trim()` (utils line 35). -/
def normCell (s : String) : String := jsTrim (jsToLower s)

/-- `headers.findIndex(h => h.toLowerCase().trim() === csvHeader.toLowerCase().trim())`,
with `none` for `-1`. -/
def findHeaderIdx (headers : List String) (csvHeader : String) : Option Nat :=
  headers.findIdx? (fun h => normCell h == normCell csvHeader)

/-- JavaScript `Map.set` / object-property assignment on an association
list: the key now maps to the new value, any previous binding is dropped. -/
def assocSet {α : Type} (m : List (String × α)) (k : String) (v : α) :
    List (String × α) :=
  (k, v) :: m.filter (fun p => p.1 ≠ k)

/-- The error message pushed for a column that is absent from the header
row (utils line 37). -/
def requiredColumnMsg (csvHeader : String) : String :=
  "Required column \"" ++ csvHeader ++ "\" not found in CSV"

/-- One iteration of the `columnMapping.forEach` of utils lines 34-41:
record the found index under the target field, or push the missing-header
error. -/
def resolveStep (headers : List String)
    (acc : List (String × Nat) × List String) (cs : ColumnSpec) :
    List (String × Nat) × List String :=
  match findHeaderIdx headers cs.csvHeader with
  | none => (acc.1, acc.2 ++ [requiredColumnMsg cs.csvHeader])
  | some i => (assocSet acc.1 cs.field i, acc.2)

/-- The `columnMapping.forEach` of utils lines 34-41: build the
`columnIndices` map and the list of missing-header errors, in mapping
order. -/
def resolveColumns (headers : List String) (mapping : List ColumnSpec) :
    List (String × Nat) × List String :=
  mapping.foldl (resolveStep headers) ([], [])

/-- The header row's parsed cells: `parseCSVLine(lines[0])`. -/
def headerCells (text : String) : List String :=
  parseCSVLine ((nonblankLines text).headD "")

/-- The mapping entries whose header is absent, by header name. -/
def missingHeaders (headers : List String) (mapping : List ColumnSpec) :
    List String :=
  (mapping.filter (fun cs => (findHeaderIdx headers cs.csvHeader).isNone)).map
    (fun cs => cs.csvHeader)

/-- The `columnMapping.forEach` of utils lines 57-62: project the row's
cells into a header-name-keyed record, only for declared columns.
`values[index] || ''` yields the empty string both out of range and for an
in-range empty cell, which is exactly `List.getD values i ""`. -/
def buildStep (colIdx : List (String × Nat)) (values : List String)
    (rd : List (String × String)) (cs : ColumnSpec) :
    List (String × String) :=
  match colIdx.lookup cs.field with
  | some i => assocSet rd cs.csvHeader (values.getD i "")
  | none => rd

/-- The `columnMapping.forEach` of utils lines 57-62 as a fold of
`buildStep` over the declared columns. -/
def buildRowData (mapping : List ColumnSpec) (colIdx : List (String × Nat))
    (values : List String) : List (String × String) :=
  mapping.foldl (buildStep colIdx values) []

/-- The data-row loop of utils lines 50-70. `i` is the JavaScript loop
index into `lines`; a failing transform contributes
`"Error on row " ++ (i+1) ++ ": " ++ message`, a successful one contributes
one record; records and errors both keep row order. The `if (!line)
continue` guard is reproduced even though filtered lines are never blank. -/
def parseRows {T : Type} (transform : List (String × String) → Except String T)
    (mapping : List ColumnSpec) (colIdx : List (String × Nat)) :
    Nat → List String → List T × List String
  | _, [] => ([], [])
  | i, l :: rest =>
    let tail := parseRows transform mapping colIdx (i + 1) rest
    let line := jsTrim l
    if line = "" then tail
    else
      match transform (buildRowData mapping colIdx (parseCSVLine line)) with
      | Except.ok t => (t :: tail.1, tail.2)
      | Except.error msg =>
          (tail.1, ("Error on row " ++ toString (i + 1) ++ ": " ++ msg) :: tail.2)

/-- utils `parseCSV` body (lines 16-72), with the file reading already done:
split into non-blank lines, fail on empty input, resolve the declared
columns against the parsed header row, fail with all missing-header errors
if any, else run the data-row loop from index 1. The row transform is the
caller-supplied one (every caller in this repository passes one). -/
def parseCSV {T : Type} (text : String) (mapping : List ColumnSpec)
    (transform : List (String × String) → Except String T) :
    List T × List String :=
  if nonblankLines text = [] then ([], ["CSV file is empty"])
  else if (resolveColumns (headerCells text) mapping).2 ≠ [] then
    ([], (resolveColumns (headerCells text) mapping).2)
  else
    ((parseRows transform mapping (resolveColumns (headerCells text) mapping).1
        1 (nonblankLines text).tail).1,
     (resolveColumns (headerCells text) mapping).2 ++
       (parseRows transform mapping (resolveColumns (headerCells text) mapping).1
         1 (nonblankLines text).tail).2)

/-- The `InsertProduct` shape produced by the products page row transform.
The page stringifies the two prices with `.toString()`; their exact numeric
values are kept here as rationals. -/
structure InsertProduct where
  stockCode : String
  name : String
  category : String
  buyingPrice : Rat
  sellingPrice : Rat
  quantity : Int
  supplierId : Option String

/-- Record lookup `row["K"]` on the header-keyed row data; every declared
key is present once the header stage succeeded, and an absent key behaves
like the empty string under the validators used here. -/
def jsGet (rd : List (String × String)) (k : String) : String :=
  (rd.lookup k).getD ""

/-- The column mapping the products page passes to `parseCSV`
(products.tsx lines 138-146). -/
def productMapping : List ColumnSpec :=
  [⟨"Stock Code", "stockCode"⟩, ⟨"Product Name", "name"⟩,
   ⟨"Category", "category"⟩, ⟨"Buying Price", "buyingPrice"⟩,
   ⟨"Selling Price", "sellingPrice"⟩, ⟨"Quantity", "quantity"⟩,
   ⟨"Supplier ID", "supplierId"⟩]

/-- The products page row transform (products.tsx lines 147-155), with the
object-literal fields evaluated in source order so the first thrown
validation wins. `row["Supplier ID"]?.trim() || null` maps a blank supplier
cell to `none`. -/
def productTransform (row : List (String × String)) :
    Except String InsertProduct := do
  let stockCode ← validateRequired (jsGet row "Stock Code") "Stock Code"
  let name ← validateRequired (jsGet row "Product Name") "Product Name"
  let category ← validateRequired (jsGet row "Category") "Category"
  let buyingPrice ← validateNumber (jsGet row "Buying Price") "Buying Price"
  let sellingPrice ← validateNumber (jsGet row "Selling Price") "Selling Price"
  let quantity ← validateInteger (jsGet row "Quantity") "Quantity"
  let supplier := jsTrim (jsGet row "Supplier ID")
  Except.ok
    ⟨stockCode, name, category, buyingPrice, sellingPrice, quantity,
     if supplier = "" then none else some supplier⟩

/-- Outcome of the products import handler: counts of created and failed
rows, whether the handler returned early on parse errors, and the error
strings it showed (the first three when aborting). -/
structure ImportOutcome where
  successCount : Nat
  failCount : Nat
  aborted : Bool
  reportedErrors : List String
deriving DecidableEq

/-- products.tsx `handleFileChange` (lines 136-183) after the file has been
read: parse with the product mapping and transform; if ANY errors were
returned — header-stage or per-row — show the first three and return with
nothing imported; otherwise create the records one by one, counting
successes and failures. `createOk` abstracts whether a POST for a given
record succeeds. -/
def handleFileImport (createOk : InsertProduct → Bool) (text : String) :
    ImportOutcome :=
  if (parseCSV text productMapping productTransform).2 ≠ [] then
    ⟨0, 0, true, (parseCSV text productMapping productTransform).2.take 3⟩
  else
    ⟨((parseCSV text productMapping productTransform).1.foldl
        (fun (sf : Nat × Nat) p =>
          if createOk p then (sf.1 + 1, sf.2) else (sf.1, sf.2 + 1)) (0, 0)).1,
     ((parseCSV text productMapping productTransform).1.foldl
        (fun (sf : Nat × Nat) p =>
          if createOk p then (sf.1 + 1, sf.2) else (sf.1, sf.2 + 1)) (0, 0)).2,
     false, []⟩

/-- One element of `insertSaleSchema`'s `items` array, shaped by
`insertSaleItemSchema` (schema lines 238-245): `id` and `saleId` omitted,
the three money fields overridden to strings. -/
structure InsertSaleItem where
  productId : String
  productName : String
  stockCode : String
  quantity : Int
  unitPrice : String
  buyingPrice : String
  subtotal : String
deriving DecidableEq

/-- The request shape validated by `insertSaleSchema` (schema lines
247-256): `id`, `createdAt`, `receiptNumber` omitted; `subtotal`,
`discount`, `total` overridden to strings; `items` an array of sale
items. -/
structure InsertSale where
  customerId : String
  sellerId : String
  subtotal : String
  discount : String
  discountType : String
  total : String
  paymentMethod : String
  items : List InsertSaleItem
deriving DecidableEq

/-- Runtime acceptance of `insertSaleItemSchema` beyond what the record
type already carries: every constraint in the schema is a type check
(string fields, numeric quantity), so a well-typed item always passes. -/
def insertSaleItemAccepts (_item : InsertSaleItem) : Bool := true

/-- Runtime acceptance of `insertSaleSchema`: elementwise validation of
`items` by `z.array(insertSaleItemSchema)`. The schema declares no
minimum length for `items`. -/
def insertSaleAccepts (req : InsertSale) : Bool :=
  req.items.all insertSaleItemAccepts

/-- What an indexed data row contributes to the record list: `some`
record when the transform succeeds, nothing on a blank line or a failing
transform. The index is the JavaScript loop index of the row in the
filtered `lines` array. -/
def rowRecord {T : Type} (transform : List (String × String) → Except String T)
    (mapping : List ColumnSpec) (colIdx : List (String × Nat))
    (il : Nat × String) : Option T :=
  if jsTrim il.2 = "" then none
  else
    match transform (buildRowData mapping colIdx (parseCSVLine (jsTrim il.2))) with
    | Except.ok t => some t
    | Except.error _ => none

/-- What an indexed data row contributes to the error list: the formatted
`"Error on row <index+1>: <message>"` string when the transform fails,
nothing otherwise. -/
def rowErrorMsg {T : Type} (transform : List (String × String) → Except String T)
    (mapping : List ColumnSpec) (colIdx : List (String × Nat))
    (il : Nat × String) : Option String :=
  if jsTrim il.2 = "" then none
  else
    match transform (buildRowData mapping colIdx (parseCSVLine (jsTrim il.2))) with
    | Except.ok _ => none
    | Except.error msg =>
        some ("Error on row " ++ toString (il.1 + 1) ++ ": " ++ msg)

/-- A ten-data-row products CSV whose fourth data row carries the
non-numeric buying price `abc`; every other row is well formed. -/
def csvTenRows : String :=
  "Stock Code,Product Name,Category,Buying Price,Selling Price,Quantity,Supplier ID\n" ++
  "P01,Item1,Cat,10,20,5,\n" ++
  "P02,Item2,Cat,10,20,5,\n" ++
  "P03,Item3,Cat,10,20,5,\n" ++
  "P04,Item4,Cat,abc,20,5,\n" ++
  "P05,Item5,Cat,10,20,5,\n" ++
  "P06,Item6,Cat,10,20,5,\n" ++
  "P07,Item7,Cat,10,20,5,\n" ++
  "P08,Item8,Cat,10,20,5,\n" ++
  "P09,Item9,Cat,10,20,5,\n" ++
  "P10,Item10,Cat,10,20,5,"

/-- A sale-insert request whose `items` array is empty, with all scalar
fields well typed. -/
def emptyItemsSaleReq : InsertSale :=
  ⟨"cust-1", "sell-1", "0", "0", "percentage", "0", "cash", []⟩

end Saga

namespace SagaSale

/-- Modelled from the spec: the Product row fields that the §4.4 Sale
Transaction Writer reads (resolution by id, stock code for error
reporting, snapshotted name and prices, current quantity). The writer
itself is not among the available source files; the spec notes its logic
is inferred. -/
structure SProduct where
  id : String
  stockCode : String
  name : String
  buyingPrice : Rat
  sellingPrice : Rat
  quantity : Int
deriving DecidableEq

/-- Modelled from the spec: one cart line of the §4.4 contract
`{productId, quantity, unitPriceOverride?}`. -/
structure SaleLine where
  productId : String
  quantity : Int
  unitPriceOverride : Option Rat
deriving DecidableEq

/-- Modelled from the spec: the §4.4 request
`{customerId, sellerId, items, discount, discountType, paymentMethod}`. -/
structure SaleRequest where
  customerId : String
  sellerId : String
  items : List SaleLine
  discount : Rat
  discountType : String
  paymentMethod : String
deriving DecidableEq

/-- Modelled from the spec: a persisted SaleItem row with the §3 snapshot
fields. -/
structure SaleItemRow where
  saleId : String
  productId : String
  productName : String
  stockCode : String
  quantity : Int
  unitPrice : Rat
  buyingPrice : Rat
  subtotal : Rat
deriving DecidableEq

/-- Modelled from the spec: a persisted Sale row (§3). -/
structure SaleRow where
  id : String
  receiptNumber : String
  customerId : String
  sellerId : String
  subtotal : Rat
  discount : Rat
  discountType : String
  total : Rat
  paymentMethod : String
deriving DecidableEq

/-- Modelled from the spec: the slice of the persistent store the writer
touches. -/
structure Store where
  products : List SProduct
  sales : List SaleRow
  saleItems : List SaleItemRow
deriving DecidableEq

/-- Modelled from the spec: the §4.4 / §7 domain failures of the writer. -/
inductive SaleError where
  | emptyCart : SaleError
  | productNotFound : String → SaleError
  | insufficientStock : List String → SaleError
deriving DecidableEq

/-- Resolve a product by id. -/
def findProduct (st : Store) (pid : String) : Option SProduct :=
  st.products.find? (fun p => p.id == pid)

/-- Modelled from the spec: resolve every cart line to its product, failing
with `productNotFound` at the first missing reference (§4.4 step 2). -/
def resolveLines (st : Store) : List SaleLine → Except SaleError (List (SaleLine × SProduct))
  | [] => Except.ok []
  | l :: rest =>
    match findProduct st l.productId with
    | none => Except.error (SaleError.productNotFound l.productId)
    | some p =>
      match resolveLines st rest with
      | Except.error e => Except.error e
      | Except.ok tail => Except.ok ((l, p) :: tail)

/-- The lines resolved against the store when every product exists:
`resolveLines` succeeds with exactly these pairs. -/
def resolvedPairs (st : Store) (items : List SaleLine) :
    List (SaleLine × SProduct) :=
  items.filterMap (fun l => (findProduct st l.productId).map (fun p => (l, p)))

/-- Modelled from the spec: a line's unit price — the override when
supplied, else the product's current selling price (§4.4 step 3). -/
def lineUnitPrice (l : SaleLine) (p : SProduct) : Rat :=
  l.unitPriceOverride.getD p.sellingPrice

/-- Modelled from the spec: the stock codes of the lines whose post-sale
quantity would be negative (§4.4 step 4). -/
def offendingCodes (resolved : List (SaleLine × SProduct)) : List String :=
  (resolved.filter (fun lp => decide (lp.2.quantity - lp.1.quantity < 0))).map
    (fun lp => lp.2.stockCode)

/-- Modelled from the spec: `total = subtotal − discount` for a fixed
discount, `subtotal − subtotal·discount/100` for a percentage discount,
floored at zero (§4.4 step 5). -/
def computeTotal (subtotal discount : Rat) (discountType : String) : Rat :=
  let t := if discountType = "fixed" then subtotal - discount
           else subtotal - subtotal * discount / 100
  max t 0

/-- Modelled from the spec: decrement each product's quantity by the total
quantity sold for it (§4.4 step 7). -/
def decrementProducts (products : List SProduct)
    (resolved : List (SaleLine × SProduct)) : List SProduct :=
  products.map (fun p =>
    let sold := ((resolved.filter (fun lp => lp.2.id == p.id)).map
      (fun lp => lp.1.quantity)).sum
    { p with quantity := p.quantity - sold })

/-- Modelled from the spec: the §4.4 Sale Transaction Writer `recordSale`.
Fails on an empty cart, a missing product, or insufficient stock for any
line; otherwise commits the sale row, its snapshotted sale items, and all
stock decrements together (§4.4 steps 1-7). The receipt number is derived
from the store's sale count, which is unique within one store — uniqueness
is the only property the spec requires of it. An error leaves the store
untouched by construction: the new store exists only in the success
value. -/
def recordSale (st : Store) (req : SaleRequest) :
    Except SaleError (Store × SaleRow) :=
  if req.items = [] then Except.error SaleError.emptyCart
  else
    match resolveLines st req.items with
    | Except.error e => Except.error e
    | Except.ok resolved =>
      if offendingCodes resolved ≠ [] then
        Except.error (SaleError.insufficientStock (offendingCodes resolved))
      else
        let saleId := "sale-" ++ toString (st.sales.length + 1)
        let receipt := "R-" ++ toString (st.sales.length + 1)
        let subtotal :=
          (resolved.map (fun lp => lineUnitPrice lp.1 lp.2 * (lp.1.quantity : Rat))).sum
        let total := computeTotal subtotal req.discount req.discountType
        let sale : SaleRow :=
          ⟨saleId, receipt, req.customerId, req.sellerId, subtotal,
           req.discount, req.discountType, total, req.paymentMethod⟩
        let items := resolved.map (fun lp =>
          SaleItemRow.mk saleId lp.1.productId lp.2.name lp.2.stockCode
            lp.1.quantity (lineUnitPrice lp.1 lp.2) lp.2.buyingPrice
            (lineUnitPrice lp.1 lp.2 * (lp.1.quantity : Rat)))
        Except.ok
          (⟨decrementProducts st.products resolved,
            st.sales ++ [sale], st.saleItems ++ items⟩, sale)

/-- The store a caller observes after attempting a sale: the committed
store on success, the old store on any failure. -/
def saleStateAfter (st : Store) (req : SaleRequest) : Store :=
  match recordSale st req with
  | Except.ok (st2, _) => st2
  | Except.error _ => st

/-- A one-product store: product `p1` with stock code `SC-1` and three
units on hand. -/
def demoStore : Store :=
  ⟨[⟨"p1", "SC-1", "Widget", 5, 8, 3⟩], [], []⟩

/-- A sale request for five units of `p1` — more than the three in
stock. -/
def oversellReq : SaleRequest :=
  ⟨"cust-1", "sell-1", [⟨"p1", 5, none⟩], 0, "percentage", "cash"⟩

/-- A sale request with an empty cart. -/
def emptyCartReq : SaleRequest :=
  ⟨"cust-1", "sell-1", [], 0, "percentage", "cash"⟩

end SagaSale

namespace Saga

theorem resolveColumns_foldl_snd (headers : List String)
    (mapping : List ColumnSpec) :
    ∀ acc : List (String × Nat) × List String,
      (mapping.foldl (resolveStep headers) acc).2
        = acc.2 ++ (missingHeaders headers mapping).map requiredColumnMsg := by
  induction mapping with
  | nil => intro acc; simp [missingHeaders]
  | cons cs rest ih =>
    intro acc
    rw [List.foldl_cons, ih]
    rcases h : findHeaderIdx headers cs.csvHeader with _ | i <;>
      simp [resolveStep, h, missingHeaders, List.filter_cons]

/-- The error component of the header-resolution stage is exactly one
missing-column message per mapping entry whose header was not found, in
mapping order. -/
theorem resolveColumns_snd (headers : List String) (mapping : List ColumnSpec) :
    (resolveColumns headers mapping).2
      = (missingHeaders headers mapping).map requiredColumnMsg := by
  simpa using resolveColumns_foldl_snd headers mapping ([], [])

/-- The data-row loop, characterized row by row: the records are the
successful transforms of the indexed rows and the errors are the formatted
failures, both in row order. -/
theorem parseRows_eq {T : Type}
    (transform : List (String × String) → Except String T)
    (mapping : List ColumnSpec) (colIdx : List (String × Nat))
    (rows : List String) : ∀ i : Nat,
    parseRows transform mapping colIdx i rows
      = ((List.enumFrom i rows).filterMap (rowRecord transform mapping colIdx),
         (List.enumFrom i rows).filterMap (rowErrorMsg transform mapping colIdx)) := by
  induction rows with
  | nil => intro i; simp [parseRows, List.enumFrom]
  | cons l rest ih =>
    intro i
    by_cases hb : jsTrim l = ""
    · simp [parseRows, hb, ih, List.enumFrom, rowRecord, rowErrorMsg]
    · rcases ht : transform (buildRowData mapping colIdx (parseCSVLine (jsTrim l))) with msg | t <;>
        simp [parseRows, hb, ht, ih, List.enumFrom, rowRecord, rowErrorMsg]

/-- When the input has lines and every declared header resolves, `parseCSV`
runs the data-row loop from index 1 over the lines after the header. -/
theorem parseCSV_headerOk {T : Type} (text : String) (mapping : List ColumnSpec)
    (transform : List (String × String) → Except String T)
    (hne : nonblankLines text ≠ [])
    (hok : missingHeaders (headerCells text) mapping = []) :
    parseCSV text mapping transform
      = parseRows transform mapping (resolveColumns (headerCells text) mapping).1
          1 (nonblankLines text).tail := by
  have h2 : (resolveColumns (headerCells text) mapping).2 = [] := by
    rw [resolveColumns_snd, hok]; rfl
  rw [parseCSV, if_neg hne, if_neg (by simp [h2]), h2]
  simp

/-- Each non-blank data row contributes exactly one record or exactly one
error to the loop's output. -/
theorem parseRows_length {T : Type}
    (transform : List (String × String) → Except String T)
    (mapping : List ColumnSpec) (colIdx : List (String × Nat)) :
    ∀ rows : List String, (∀ l ∈ rows, jsTrim l ≠ "") → ∀ i : Nat,
      (parseRows transform mapping colIdx i rows).1.length +
        (parseRows transform mapping colIdx i rows).2.length = rows.length := by
  intro rows
  induction rows with
  | nil => intro _ i; simp [parseRows]
  | cons l rest ih =>
    intro h i
    have hl : jsTrim l ≠ "" := h l (List.mem_cons_self l rest)
    have hrest := ih (fun x hx => h x (List.mem_cons_of_mem l hx)) (i + 1)
    rcases ht : transform (buildRowData mapping colIdx (parseCSVLine (jsTrim l))) with msg | t <;>
      simp [parseRows, hl, ht] <;> omega

/-- Every line kept by the blank-line filter trims to a non-empty string. -/
theorem nonblankLines_trim_ne (text : String) :
    ∀ l ∈ nonblankLines text, jsTrim l ≠ "" := by
  intro l hl
  have := (List.mem_filter.mp hl).2
  exact of_decide_eq_true this

/-- Membership in the tail of the non-blank line list implies membership in
the list itself. -/
theorem mem_of_mem_nonblank_tail (text : String) (l : String)
    (hl : l ∈ (nonblankLines text).tail) : l ∈ nonblankLines text := by
  rcases hnb : nonblankLines text with _ | ⟨a, t⟩
  · rw [hnb] at hl; simp at hl
  · rw [hnb] at hl; exact List.mem_cons_of_mem a hl

/-- Membership in the result of one `buildStep`-fold: a binding is either
carried over from the accumulator or was written for some declared column,
with the value read through `values.getD i ""`. -/
theorem buildRowData_foldl_mem (colIdx : List (String × Nat))
    (values : List String) (k v : String) :
    ∀ (mapping : List ColumnSpec) (acc : List (String × String)),
      (k, v) ∈ mapping.foldl (buildStep colIdx values) acc →
      (k, v) ∈ acc ∨
        ∃ cs ∈ mapping, ∃ i, cs.csvHeader = k ∧
          colIdx.lookup cs.field = some i ∧ v = values.getD i "" := by
  intro mapping
  induction mapping with
  | nil => intro acc h; exact Or.inl (by simpa using h)
  | cons cs rest ih =>
    intro acc h
    rw [List.foldl_cons] at h
    rcases ih (buildStep colIdx values acc cs) h with hacc | ⟨cs2, hcs2, i, hk, hi, hv⟩
    · rcases hidx : colIdx.lookup cs.field with _ | i
      · rw [buildStep, hidx] at hacc
        exact Or.inl hacc
      · rw [buildStep, hidx] at hacc
        rcases List.mem_cons.mp hacc with heq | hfil
        · refine Or.inr ⟨cs, List.mem_cons_self cs rest, i, ?_, hidx, ?_⟩
          · exact (Prod.mk.injEq _ _ _ _ ▸ heq).1.symm
          · exact (Prod.mk.injEq _ _ _ _ ▸ heq).2
        · exact Or.inl (List.mem_of_mem_filter hfil)
    · exact Or.inr ⟨cs2, List.mem_cons_of_mem cs hcs2, i, hk, hi, hv⟩

end Saga

namespace SagaSale

/-- When every cart line resolves, `resolveLines` succeeds with exactly the
line/product pairs of `resolvedPairs`. -/
theorem resolveLines_ok (st : Store) :
    ∀ items : List SaleLine,
      items.all (fun l => (findProduct st l.productId).isSome) = true →
      resolveLines st items = Except.ok (resolvedPairs st items) := by
  intro items
  induction items with
  | nil => intro _; simp [resolveLines, resolvedPairs]
  | cons l rest ih =>
    intro h
    rw [List.all_cons, Bool.and_eq_true] at h
    obtain ⟨p, hp⟩ := Option.isSome_iff_exists.mp h.1
    rw [resolveLines, hp, ih h.2]
    simp [resolvedPairs, hp]

end SagaSale

namespace Saga

/-- C1: if the parsed header row lacks at least one declared external
header (matched case-insensitively after trimming), `parseCSV` returns an
empty record list and exactly one error per missing header, naming it. The
right-hand side does not mention the row transform at all, so no data-row
parsing takes place: the result is the same for every transform. -/
theorem parseCSV_missing_header_fails {T : Type} (text : String)
    (mapping : List ColumnSpec)
    (transform : List (String × String) → Except String T)
    (hne : nonblankLines text ≠ [])
    (hmiss : missingHeaders (headerCells text) mapping ≠ []) :
    parseCSV text mapping transform
      = ([], (missingHeaders (headerCells text) mapping).map requiredColumnMsg) := by
  have h2 : (resolveColumns (headerCells text) mapping).2
      = (missingHeaders (headerCells text) mapping).map requiredColumnMsg :=
    resolveColumns_snd _ _
  have hne2 : (resolveColumns (headerCells text) mapping).2 ≠ [] := by
    rw [h2]
    intro hmap
    exact hmiss (List.map_eq_nil_iff.mp hmap)
  unfold parseCSV
  rw [if_neg hne, if_pos hne2, h2]

/-- Witness for C1 at a concrete input: the CSV `A,B\n1,2` with a mapping
that declares the absent header `C`. -/
theorem parseCSV_missing_header_fails_witness :
    nonblankLines "A,B\n1,2" ≠ [] ∧
    missingHeaders (headerCells "A,B\n1,2") [⟨"C", "c"⟩] ≠ [] ∧
    parseCSV "A,B\n1,2" [⟨"C", "c"⟩] (fun rd => Except.ok rd)
      = ([], (missingHeaders (headerCells "A,B\n1,2") [⟨"C", "c"⟩]).map requiredColumnMsg) :=
  ⟨by decide, by decide,
   parseCSV_missing_header_fails "A,B\n1,2" [⟨"C", "c"⟩] (fun rd => Except.ok rd)
     (by decide) (by decide)⟩

/-- C2: the tokenizer honors CSV quoting — a comma inside a quoted field
stays literal content of one field, and a doubled double-quote inside a
quoted field decodes to one literal quote: the two example rows of the
spec tokenize exactly as stated. -/
theorem parseCSVLine_quoting :
    parseCSVLine "\"Acme, Inc\",100,5" = ["Acme, Inc", "100", "5"] ∧
    parseCSVLine "\"She said \"\"hi\"\"\",1,1" = ["She said \"hi\"", "1", "1"] :=
  ⟨by decide, by decide⟩

/-- C3 counterexample: the row number in a row error is NOT the row's
1-based line number in the raw input text. In `"H\n\nx"` the failing data
row `x` is line 3 of the input text (`splitReLines` puts it at 0-based
index 2), yet the error reads `Error on row 2`, because blank lines are
filtered out before the loop index is assigned. -/
theorem parseCSV_rowNumber_counterexample :
    (parseCSV "H\n\nx" [⟨"H", "h"⟩]
        (fun _ => (Except.error "bad" : Except String Unit))).2
      = ["Error on row 2: bad"] ∧
    splitReLines "H\n\nx" = ["H", "", "x"] :=
  ⟨by decide, by decide⟩

/-- C3, as amended: once the header stage succeeds, each data row whose
transform fails contributes the error `"Error on row <N>: <message>"`
where `N` is the row's 1-based position among the NON-BLANK lines of the
input (the header line being position 1) — not its line number in the raw
input text, which differs as soon as a blank line precedes the row. The
failing row is skipped, every remaining row is processed, and both the
records and the errors appear in row order. -/
theorem parseCSV_row_accounting {T : Type} (text : String)
    (mapping : List ColumnSpec)
    (transform : List (String × String) → Except String T)
    (hne : nonblankLines text ≠ [])
    (hok : missingHeaders (headerCells text) mapping = []) :
    parseCSV text mapping transform
      = ((List.enumFrom 1 (nonblankLines text).tail).filterMap
           (rowRecord transform mapping (resolveColumns (headerCells text) mapping).1),
         (List.enumFrom 1 (nonblankLines text).tail).filterMap
           (rowErrorMsg transform mapping (resolveColumns (headerCells text) mapping).1)) := by
  rw [parseCSV_headerOk text mapping transform hne hok, parseRows_eq]

/-- Witness for C3 (amended) at a concrete input with one failing row. -/
theorem parseCSV_row_accounting_witness :
    nonblankLines "H\nx" ≠ [] ∧
    missingHeaders (headerCells "H\nx") [⟨"H", "h"⟩] = [] ∧
    parseCSV "H\nx" [⟨"H", "h"⟩] (fun _ => (Except.error "boom" : Except String Unit))
      = ((List.enumFrom 1 (nonblankLines "H\nx").tail).filterMap
           (rowRecord (fun _ => (Except.error "boom" : Except String Unit)) [⟨"H", "h"⟩]
             (resolveColumns (headerCells "H\nx") [⟨"H", "h"⟩]).1),
         (List.enumFrom 1 (nonblankLines "H\nx").tail).filterMap
           (rowErrorMsg (fun _ => (Except.error "boom" : Except String Unit)) [⟨"H", "h"⟩]
             (resolveColumns (headerCells "H\nx") [⟨"H", "h"⟩]).1)) :=
  ⟨by decide, by decide,
   parseCSV_row_accounting "H\nx" [⟨"H", "h"⟩]
     (fun _ => (Except.error "boom" : Except String Unit)) (by decide) (by decide)⟩

/-- C4: `validateInteger` does NOT reject the fractional input `3.7` — it
returns `3`, because `parseInt` stops at the decimal point and its result
is always an integer, making the `!Number.isInteger(num)` guard in the
source unreachable. The spec's `parseWholeNumber` contract (fractional
values are rejected) is the evident intent of that dead guard, so this is
a bug in the code, not in the claim. -/
theorem validateInteger_fractional_accepted :
    validateInteger "3.7" "Quantity" = Except.ok 3 ∧ jsParseInt "3.7" = some 3 :=
  ⟨rfl, rfl⟩

/-- C5 counterexample: for a ten-row import whose fourth data row has a
non-numeric price, the parser does return the nine good records and the
single row error — but the page handler aborts whenever ANY errors exist,
importing zero records instead of the nine the claim promises. -/
theorem handleFileImport_counterexample :
    (parseCSV csvTenRows productMapping productTransform).1.length = 9 ∧
    (parseCSV csvTenRows productMapping productTransform).2
      = ["Error on row 5: Buying Price must be a valid number"] ∧
    handleFileImport (fun _ => true) csvTenRows
      = ⟨0, 0, true, ["Error on row 5: Buying Price must be a valid number"]⟩ :=
  ⟨by decide, by decide, by decide⟩

/-- C5, as amended: whenever the parse returns any errors — header-stage
or per-row — the products import handler aborts, showing at most the
first three error strings and importing nothing; rows are only created
when the parse reported zero errors. -/
theorem handleFileImport_aborts_on_errors (createOk : InsertProduct → Bool)
    (text : String)
    (h : (parseCSV text productMapping productTransform).2 ≠ []) :
    handleFileImport createOk text
      = ⟨0, 0, true, (parseCSV text productMapping productTransform).2.take 3⟩ := by
  unfold handleFileImport
  rw [if_pos h]

/-- Witness for C5 (amended) at the ten-row fixture. -/
theorem handleFileImport_aborts_witness :
    (parseCSV csvTenRows productMapping productTransform).2 ≠ [] ∧
    handleFileImport (fun _ => false) csvTenRows
      = ⟨0, 0, true, (parseCSV csvTenRows productMapping productTransform).2.take 3⟩ :=
  ⟨by decide, handleFileImport_aborts_on_errors (fun _ => false) csvTenRows (by decide)⟩

/-- C6 counterexample: the sale-insert schema does NOT require a non-empty
items array — `z.array(insertSaleItemSchema)` carries no minimum length,
so a request with zero items passes schema validation. -/
theorem insertSale_schema_accepts_empty_items :
    insertSaleAccepts emptyItemsSaleReq = true ∧ emptyItemsSaleReq.items = [] :=
  ⟨rfl, rfl⟩

/-- C9: whenever header resolution succeeds, every non-blank data row
after the header contributes exactly one record or exactly one error, so
the record count plus the error count equals the data-row count. -/
theorem parseCSV_row_partition {T : Type} (text : String)
    (mapping : List ColumnSpec)
    (transform : List (String × String) → Except String T)
    (hne : nonblankLines text ≠ [])
    (hok : missingHeaders (headerCells text) mapping = []) :
    (parseCSV text mapping transform).1.length +
        (parseCSV text mapping transform).2.length
      = (nonblankLines text).tail.length := by
  rw [parseCSV_headerOk text mapping transform hne hok]
  exact parseRows_length transform mapping _ _
    (fun l hl => nonblankLines_trim_ne text l (mem_of_mem_nonblank_tail text l hl)) 1

/-- Witness for C9 at a concrete input with one good and one failing
row. -/
theorem parseCSV_row_partition_witness :
    nonblankLines "H\na\nbad" ≠ [] ∧
    missingHeaders (headerCells "H\na\nbad") [⟨"H", "h"⟩] = [] ∧
    (parseCSV "H\na\nbad" [⟨"H", "h"⟩]
        (fun rd => if jsGet rd "H" = "bad" then Except.error "x" else Except.ok rd)).1.length +
      (parseCSV "H\na\nbad" [⟨"H", "h"⟩]
        (fun rd => if jsGet rd "H" = "bad" then Except.error "x" else Except.ok rd)).2.length
      = (nonblankLines "H\na\nbad").tail.length :=
  ⟨by decide, by decide,
   parseCSV_row_partition "H\na\nbad" [⟨"H", "h"⟩]
     (fun rd => if jsGet rd "H" = "bad" then Except.error "x" else Except.ok rd)
     (by decide) (by decide)⟩

/-- C10: every binding handed to the row transform reads its value through
`values.getD i ""`, so a row with fewer cells than a declared column's
resolved index supplies the empty string for that column — never an
absent value, an error, or a crash (the fold is total). -/
theorem buildRowData_short_row (mapping : List ColumnSpec)
    (colIdx : List (String × Nat)) (values : List String) (k v : String)
    (hmem : (k, v) ∈ buildRowData mapping colIdx values) :
    ∃ cs ∈ mapping, ∃ i, cs.csvHeader = k ∧ colIdx.lookup cs.field = some i ∧
      v = values.getD i "" ∧ (values.length ≤ i → v = "") := by
  rcases buildRowData_foldl_mem colIdx values k v mapping [] hmem with
    h | ⟨cs, hcs, i, hk, hi, hv⟩
  · simp at h
  · refine ⟨cs, hcs, i, hk, hi, hv, fun hlen => ?_⟩
    rw [hv]
    exact List.getD_eq_default _ _ hlen

/-- Witness for C10: a one-cell row against a column resolved to index 5
receives the empty string. -/
theorem buildRowData_short_row_witness :
    ("H", "") ∈ buildRowData [⟨"H", "h"⟩] [("h", 5)] ["a"] ∧
    (∃ cs ∈ [(⟨"H", "h"⟩ : ColumnSpec)], ∃ i, cs.csvHeader = "H" ∧
      List.lookup cs.field [("h", 5)] = some i ∧ "" = ["a"].getD i "" ∧
      (["a"].length ≤ i → "" = "")) :=
  ⟨by decide, buildRowData_short_row [⟨"H", "h"⟩] [("h", 5)] ["a"] "H" "" (by decide)⟩

end Saga

namespace SagaSale

/-- C6, as amended: `recordSale` (modelled from the spec) fails with the
empty-cart error for every request with an empty items list and the store
is left untouched; the sale-insert validation schema, however, accepts any
well-typed request, including one whose items array is empty — it does not
restrict the array's length. -/
theorem recordSale_emptyCart_schema (st : Store) (req : SaleRequest)
    (r : Saga.InsertSale) (h : req.items = []) :
    recordSale st req = Except.error SaleError.emptyCart ∧
    saleStateAfter st req = st ∧
    Saga.insertSaleAccepts r = true := by
  have h1 : recordSale st req = Except.error SaleError.emptyCart := by
    unfold recordSale
    rw [if_pos h]
  refine ⟨h1, ?_, ?_⟩
  · unfold saleStateAfter
    rw [h1]
  · simp [Saga.insertSaleAccepts, Saga.insertSaleItemAccepts, List.all_eq_true]

/-- Witness for C6 (amended) at a concrete empty-cart request. -/
theorem recordSale_emptyCart_schema_witness :
    emptyCartReq.items = [] ∧
    (recordSale demoStore emptyCartReq = Except.error SaleError.emptyCart ∧
     saleStateAfter demoStore emptyCartReq = demoStore ∧
     Saga.insertSaleAccepts Saga.emptyItemsSaleReq = true) :=
  ⟨rfl, recordSale_emptyCart_schema demoStore emptyCartReq Saga.emptyItemsSaleReq rfl⟩

/-- C7: when every cart line resolves to a product and some line's
quantity exceeds its product's current stock, `recordSale` (modelled from
the spec) fails in full with the insufficient-stock error naming the
offending stock codes, and the store — every product quantity included —
is exactly the one from before the call. -/
theorem recordSale_insufficientStock (st : Store) (req : SaleRequest)
    (hall : req.items.all (fun l => (findProduct st l.productId).isSome) = true)
    (hoff : offendingCodes (resolvedPairs st req.items) ≠ []) :
    recordSale st req
        = Except.error
            (SaleError.insufficientStock (offendingCodes (resolvedPairs st req.items))) ∧
    saleStateAfter st req = st := by
  have hne : req.items ≠ [] := by
    intro he
    apply hoff
    rw [he]
    rfl
  have hres := resolveLines_ok st req.items hall
  have h1 : recordSale st req
      = Except.error
          (SaleError.insufficientStock (offendingCodes (resolvedPairs st req.items))) := by
    unfold recordSale
    rw [if_neg hne, hres]
    simp [hoff]
  refine ⟨h1, ?_⟩
  unfold saleStateAfter
  rw [h1]

/-- Witness for C7: five units requested of a product holding three. -/
theorem recordSale_insufficientStock_witness :
    oversellReq.items.all (fun l => (findProduct demoStore l.productId).isSome) = true ∧
    offendingCodes (resolvedPairs demoStore oversellReq.items) ≠ [] ∧
    (recordSale demoStore oversellReq
        = Except.error
            (SaleError.insufficientStock
              (offendingCodes (resolvedPairs demoStore oversellReq.items))) ∧
     saleStateAfter demoStore oversellReq = demoStore) :=
  ⟨by decide, by decide,
   recordSale_insufficientStock demoStore oversellReq (by decide) (by decide)⟩

end SagaSale


